import Mathlib

/-!
# Todo lists over GraphQL: storage layer and resolvers

A shallow embedding of `golang/common/common.go` (the storage layer) and of the
resolver closures and field catalog of `golang/graphql-go/main.go`.

The package-level handle `var db *sql.DB` is part of the embedding: `Handle` is its
value, `init` is what start-up does to it, and every `db.Begin()` and `db.Prepare()`
panics on the nil handle.  The SQL engine behind `database/sql` is modelled by the
few facts the Go code relies on: a statement is parsed when it is prepared, the
number of bound arguments is checked when it is executed, the number of scan
destinations is checked against the number of result columns after a row has been
found, a statement that fails writes nothing, and a commit that fails persists
nothing.  Engine failures (a busy or broken connection) are a parameter, `Engine`.
-/

namespace common

/-- TodoItem is a representation of an item in a todo list. -/
structure TodoItem where
  ID : Int
  Name : String
  Done : Bool
  ListID : Int
  deriving DecidableEq, Repr

/-- TodoList: a list row, `id` and `name`. -/
structure TodoList where
  ID : Int
  Name : String
  deriving DecidableEq, Repr

/-- The zero value `TodoItem{}`. -/
def TodoItem.zero : TodoItem := ⟨0, "", false, 0⟩

/-- A dynamically typed value: a bound SQL argument, a result column, or the value
of a GraphQL argument (`interface{}`). -/
inductive Value where
  | int (n : Int)
  | str (s : String)
  | bool (b : Bool)
  deriving DecidableEq, Repr

/-- The errors the code can return.  `New` is `errors.New`, `ErrNoRows` is
`sql.ErrNoRows`, `scanArity` is "sql: expected c destination arguments in Scan, not d",
`bindArity` is "sql: expected p arguments, got a", `scanType` is a failed column
conversion, `syntaxError` is the engine refusing to parse a statement, `full` is the
engine refusing an insert because the largest rowid has been used, `engine` is any
other engine failure, and `Argument` is the rejection of a request whose named
argument is missing or ill-typed. -/
inductive Error where
  | New (text : String)
  | ErrNoRows
  | scanArity (columns dests : Nat)
  | bindArity (placeholders args : Nat)
  | scanType
  | syntaxError
  | full
  | engine (code : Nat)
  | Argument (name : String)
  deriving DecidableEq, Repr

/-- How a call ends: with a value, with an error value, or in a panic (here always the
nil pointer dereference on the package-level handle). -/
inductive Outcome (α : Type) where
  | ok (a : α)
  | error (err : Error)
  | panic
  deriving DecidableEq, Repr

/-- The SQL texts that occur in the operations embedded here. -/
inductive Sql where
  /-- INSERT INTO todoItems(name, done, listId) VALUES (?, ?, ?); -/
  | insertItem
  /-- INSERT INTO todoLists(name) VALUES (?); -/
  | insertList
  /-- SELECT * FROM todoItems WHERE listId = ?; -/
  | selectItemsOfList
  /-- SELECT name FROM todoLists WHERE id = ?; -/
  | selectListName
  /-- SELECT name, done, listId FROM todoItems WHERE id = ?; -/
  | selectItemFields
  /-- UPDATE todoItems SET( name = ?, done = ?, listId = ? ) WHERE id = ?; -/
  | updateItemSet
  deriving DecidableEq, Repr

/-- Whether the engine parses the text.  `UPDATE todoItems SET( name = ?, ...` opens
a parenthesis after SET and then meets `=` where a column list must go on: it is
refused. -/
def Sql.wellFormed : Sql → Bool
  | .updateItemSet => false
  | _ => true

/-- Number of `?` placeholders in the text. -/
def Sql.placeholders : Sql → Nat
  | .insertItem => 3
  | .insertList => 1
  | .selectItemsOfList => 1
  | .selectListName => 1
  | .selectItemFields => 1
  | .updateItemSet => 4

/-- Number of result columns of the text (`*` on todoItems is id, name, done, listId). -/
def Sql.columns : Sql → Nat
  | .selectItemsOfList => 4
  | .selectListName => 1
  | .selectItemFields => 3
  | _ => 0

/-- The persisted state: the rows of the two tables in rowid order, and for each table
the largest id ever handed out (`sqlite_sequence`, kept for `autoincrement`). -/
structure Store where
  todoLists : List TodoList
  todoItems : List TodoItem
  listSeq : Int
  itemSeq : Int
  deriving DecidableEq, Repr

/-- The store right after the tables have been created. -/
def Store.empty : Store := ⟨[], [], 0, 0⟩

/-- The largest rowid, 2^63 - 1. -/
def maxRowid : Int := 9223372036854775807

/-- The id `autoincrement` hands out: one more than the largest id ever used, and none
once the largest rowid has been used. -/
def nextID (seq : Int) (ids : List Int) : Option Int :=
  if ids.foldl max seq < maxRowid then some (ids.foldl max seq + 1) else none

/-- What a well-formed statement with correctly many arguments writes.  Foreign keys
are not enforced by the connection opened with the plain file name.  An insert for
which no id is left fails with `full` and writes nothing. -/
def Sql.write (q : Sql) (args : List Value) (s : Store) : Except Error Store :=
  match q, args with
  | .insertList, [.str name] =>
    match nextID s.listSeq (s.todoLists.map TodoList.ID) with
    | some id => .ok { s with todoLists := s.todoLists ++ [⟨id, name⟩], listSeq := id }
    | none => .error .full
  | .insertItem, [.str name, .bool done, .int listID] =>
    match nextID s.itemSeq (s.todoItems.map TodoItem.ID) with
    | some id =>
      .ok { s with todoItems := s.todoItems ++ [⟨id, name, done, listID⟩], itemSeq := id }
    | none => .error .full
  | _, _ => .ok s

/-- The rows a query returns. -/
def Sql.rows (q : Sql) (args : List Value) (s : Store) : List (List Value) :=
  match q, args with
  | .selectListName, [.int id] =>
    (s.todoLists.filter (fun l => l.ID = id)).map (fun l => [.str l.Name])
  | .selectItemFields, [.int id] =>
    (s.todoItems.filter (fun i => i.ID = id)).map
      (fun i => [.str i.Name, .bool i.Done, .int i.ListID])
  | .selectItemsOfList, [.int listID] =>
    (s.todoItems.filter (fun i => i.ListID = listID)).map
      (fun i => [.int i.ID, .str i.Name, .bool i.Done, .int i.ListID])
  | _, _ => []

/-- A call that reached the engine. -/
inductive Event where
  | txBegin
  | txCommit
  | txRollback
  | prepare (q : Sql)
  | exec (q : Sql)
  | query (q : Sql)
  deriving DecidableEq, Repr

/-- The database file: the persisted store and the engine calls made so far, newest
first. -/
structure Database where
  store : Store
  log : List Event
  deriving DecidableEq, Repr

/-- The value of the package-level `var db *sql.DB`: nil, or a connection onto the
database. -/
inductive Handle where
  | nil
  | conn
  deriving DecidableEq, Repr

/-- Start-up, `init`, as it acts on the package-level handle.  `db, err :=
sql.Open(...)` declares a new local `db`; the two tables are created through that
local, and the package-level variable is never assigned: it keeps the value it had. -/
def init (pkg : Handle) : Handle :=
  let _db : Handle := .conn
  pkg

/-- The package-level `db` as the operations find it: the zero value of a pointer,
passed through `init`. -/
def db : Handle := init .nil

/-- Which engine calls fail, and with what. -/
structure Engine where
  beginErr : Option Error
  prepareErr : Option Error
  queryErr : Option Error
  execErr : Option Error
  commitErr : Option Error

/-- An engine on which no call fails by itself. -/
def Engine.healthy : Engine := ⟨none, none, none, none, none⟩

/-- An open transaction: its working copy of the store. -/
structure Tx where
  pending : Store

/-- A prepared statement. -/
structure Stmt where
  text : Sql

/-- Record a call. -/
def Database.note (d : Database) (e : Event) : Database := { d with log := e :: d.log }

/-- `db.Begin()` on the handle `h`: a panic on the nil handle, before any engine call. -/
def Begin (eng : Engine) (h : Handle) (d : Database) : Outcome Tx × Database :=
  match h with
  | .nil => (.panic, d)
  | .conn =>
    match eng.beginErr with
    | some err => (.error err, d.note .txBegin)
    | none => (.ok ⟨d.store⟩, d.note .txBegin)

/-- `tx.Commit()`: the working copy becomes the persisted store, unless the commit
fails. -/
def Commit (eng : Engine) (tx : Tx) (d : Database) : Option Error × Database :=
  match eng.commitErr with
  | some err => (some err, d.note .txCommit)
  | none => (none, { (d.note .txCommit) with store := tx.pending })

/-- `tx.Prepare(text)` on an open transaction. -/
def TxPrepare (eng : Engine) (q : Sql) (d : Database) : Except Error Stmt × Database :=
  match eng.prepareErr with
  | some err => (.error err, d.note (.prepare q))
  | none =>
    if q.wellFormed then (.ok ⟨q⟩, d.note (.prepare q))
    else (.error .syntaxError, d.note (.prepare q))

/-- `db.Prepare(text)` on the handle `h`: a panic on the nil handle, before any engine
call. -/
def Prepare (eng : Engine) (h : Handle) (q : Sql) (d : Database) :
    Outcome Stmt × Database :=
  match h with
  | .nil => (.panic, d)
  | .conn =>
    match TxPrepare eng q d with
    | (.error err, d1) => (.error err, d1)
    | (.ok stmt, d1) => (.ok stmt, d1)

/-- `stmt.Exec(args...)` inside a transaction. -/
def Exec (eng : Engine) (stmt : Stmt) (args : List Value) (tx : Tx) (d : Database) :
    Option Error × Tx × Database :=
  match eng.execErr with
  | some err => (some err, tx, d.note (.exec stmt.text))
  | none =>
    if args.length = stmt.text.placeholders then
      match stmt.text.write args tx.pending with
      | .ok s => (none, ⟨s⟩, d.note (.exec stmt.text))
      | .error err => (some err, tx, d.note (.exec stmt.text))
    else
      (some (.bindArity stmt.text.placeholders args.length), tx, d.note (.exec stmt.text))

/-- `stmt.Query(args...)`: the result rows, read from `s`. -/
def Query (eng : Engine) (stmt : Stmt) (args : List Value) (s : Store) (d : Database) :
    Except Error (List (List Value)) × Database :=
  match eng.queryErr with
  | some err => (.error err, d.note (.query stmt.text))
  | none =>
    if args.length = stmt.text.placeholders then
      (.ok (stmt.text.rows args s), d.note (.query stmt.text))
    else
      (.error (.bindArity stmt.text.placeholders args.length), d.note (.query stmt.text))

/-- `rows.Scan(dest...)` with `dests` destinations on one row: the destination count
must be the column count. -/
def Scan (q : Sql) (row : List Value) (dests : Nat) : Except Error (List Value) :=
  if dests = q.columns then .ok row else .error (.scanArity q.columns dests)

/-- `stmt.QueryRow(args...).Scan(dest...)`: a query failure is reported by Scan; with
no row the result is `ErrNoRows`; otherwise the first row is scanned. -/
def QueryRowScan (eng : Engine) (stmt : Stmt) (args : List Value) (dests : Nat)
    (d : Database) : Except Error (List Value) × Database :=
  match Query eng stmt args d.store d with
  | (.error err, d1) => (.error err, d1)
  | (.ok [], d1) => (.error .ErrNoRows, d1)
  | (.ok (row :: _), d1) => (Scan stmt.text row dests, d1)

/-- AddItem: `list.AddItem(item)`.  The commit is deferred right after Begin, so it
runs on every return below it, and its own result is dropped. -/
def AddItem (eng : Engine) (h : Handle) (list : TodoList) (item : TodoItem) (d : Database) :
    Outcome Unit × Database :=
  match Begin eng h d with
  | (.panic, d1) => (.panic, d1)
  | (.error err, d1) => (.error err, d1)
  | (.ok tx, d1) =>
    match TxPrepare eng .insertItem d1 with
    | (.error err, d2) => (.error err, (Commit eng tx d2).2)
    | (.ok stmt, d2) =>
      match Exec eng stmt [.str item.Name, .bool item.Done, .int list.ID] tx d2 with
      | (some err, tx3, d3) => (.error err, (Commit eng tx3 d3).2)
      | (none, tx3, d3) => (.ok (), (Commit eng tx3 d3).2)

/-- AddList: `AddList(list)`.  Only `list.Name` is bound; `list.ID` is not used. -/
def AddList (eng : Engine) (h : Handle) (list : TodoList) (d : Database) :
    Outcome Unit × Database :=
  match Begin eng h d with
  | (.panic, d1) => (.panic, d1)
  | (.error err, d1) => (.error err, d1)
  | (.ok tx, d1) =>
    match TxPrepare eng .insertList d1 with
    | (.error err, d2) => (.error err, (Commit eng tx d2).2)
    | (.ok stmt, d2) =>
      match Exec eng stmt [.str list.Name] tx d2 with
      | (some err, tx3, d3) => (.error err, (Commit eng tx3 d3).2)
      | (none, tx3, d3) => (.ok (), (Commit eng tx3 d3).2)

/-- The loop of GetItems: scan every row into four destinations and append. -/
def scanItems (q : Sql) : List (List Value) → List TodoItem → Except Error (List TodoItem)
  | [], items => .ok items
  | row :: rest, items =>
    match Scan q row 4 with
    | .error err => .error err
    | .ok [.int id, .str name, .bool done, .int listID] =>
      scanItems q rest (items ++ [⟨id, name, done, listID⟩])
    | .ok _ => .error .scanType

/-- GetItems: `list.GetItems()`. -/
def GetItems (eng : Engine) (h : Handle) (list : TodoList) (d : Database) :
    Outcome (List TodoItem) × Database :=
  match Begin eng h d with
  | (.panic, d1) => (.panic, d1)
  | (.error err, d1) => (.error err, d1)
  | (.ok tx, d1) =>
    match TxPrepare eng .selectItemsOfList d1 with
    | (.error err, d2) => (.error err, (Commit eng tx d2).2)
    | (.ok stmt, d2) =>
      match Query eng stmt [.int list.ID] tx.pending d2 with
      | (.error err, d3) => (.error err, (Commit eng tx d3).2)
      | (.ok rows, d3) =>
        match scanItems stmt.text rows [] with
        | .error err => (.error err, (Commit eng tx d3).2)
        | .ok items => (.ok items, (Commit eng tx d3).2)

/-- GetListByID: `GetListByID(id)`.  The statement selects the one column `name`; the
scan names two destinations, `&id` and `&name`. -/
def GetListByID (eng : Engine) (h : Handle) (id : Int) (d : Database) :
    Outcome TodoList × Database :=
  match Prepare eng h .selectListName d with
  | (.panic, d1) => (.panic, d1)
  | (.error err, d1) => (.error err, d1)
  | (.ok stmt, d1) =>
    match QueryRowScan eng stmt [.int id] 2 d1 with
    | (.error err, d2) => (.error err, d2)
    | (.ok [.int id2, .str name], d2) => (.ok ⟨id2, name⟩, d2)
    | (.ok _, d2) => (.error .scanType, d2)

/-- GetItemByID: `GetItemByID(id)`. -/
def GetItemByID (eng : Engine) (h : Handle) (id : Int) (d : Database) :
    Outcome TodoItem × Database :=
  match Prepare eng h .selectItemFields d with
  | (.panic, d1) => (.panic, d1)
  | (.error err, d1) => (.error err, d1)
  | (.ok stmt, d1) =>
    match QueryRowScan eng stmt [.int id] 3 d1 with
    | (.error err, d2) => (.error err, d2)
    | (.ok [.str name, .bool done, .int listID], d2) => (.ok ⟨id, name, done, listID⟩, d2)
    | (.ok _, d2) => (.error .scanType, d2)

/-- UpdateItem: `list.UpdateItem(newItem)`.  Three values are bound, the last of them
`list.ID`; `newItem.ID` is not used. -/
def UpdateItem (eng : Engine) (h : Handle) (list : TodoList) (newItem : TodoItem)
    (d : Database) : Outcome Unit × Database :=
  match Begin eng h d with
  | (.panic, d1) => (.panic, d1)
  | (.error err, d1) => (.error err, d1)
  | (.ok tx, d1) =>
    match TxPrepare eng .updateItemSet d1 with
    | (.error err, d2) => (.error err, (Commit eng tx d2).2)
    | (.ok stmt, d2) =>
      match Exec eng stmt [.str newItem.Name, .bool newItem.Done, .int list.ID] tx d2 with
      | (some err, tx3, d3) => (.error err, (Commit eng tx3 d3).2)
      | (none, tx3, d3) => (.ok (), (Commit eng tx3 d3).2)

end common

namespace main

open common

/-- The argument map `params.Args`, a `map[string]interface{}`. -/
abbrev Args := String → Option Value

/-- The type assertion `params.Args[key].(string)` in its comma-ok form. -/
def Args.string (args : Args) (key : String) : Option String :=
  match args key with
  | some (.str s) => some s
  | _ => none

/-- The type assertion `params.Args[key].(int)` in its comma-ok form. -/
def Args.int (args : Args) (key : String) : Option Int :=
  match args key with
  | some (.int n) => some n
  | _ => none

/-- The type assertion `params.Args[key].(bool)` in its comma-ok form. -/
def Args.bool (args : Args) (key : String) : Option Bool :=
  match args key with
  | some (.bool b) => some b
  | _ => none

/-- What a resolver hands back as its `interface{}` result. -/
inductive Payload where
  | null
  | list (l : TodoList)
  | item (i : TodoItem)
  | items (is : List TodoItem)
  deriving DecidableEq, Repr

/-- A `Resolve` function: `(interface{}, error)` from `params`, run on an engine with the
package-level handle at some value, acting on the database. -/
abbrev Resolver := Engine → Handle → Args → Database → Outcome Payload × Database

/-- The Resolve closure of the mutation `createTodoList`. -/
def createTodoList : Resolver := fun eng h args d =>
  match args.string "name" with
  | none => (.error (.New "could not find 'name' parameter"), d)
  | some name =>
    match args.int "id" with
    | none => (.error (.New "could not found 'id' parameter"), d)
    | some id =>
      let list : TodoList := ⟨id, name⟩
      match AddList eng h list d with
      | (.panic, d1) => (.panic, d1)
      | (.error err, d1) => (.error err, d1)
      | (.ok _, d1) => (.ok (.list list), d1)

/-- The Resolve closure of the mutation `createTodoItem`. -/
def createTodoItem : Resolver := fun eng h args d =>
  match args.string "name" with
  | none => (.error (.New "could not find 'name' parameter"), d)
  | some name =>
    match args.int "listId" with
    | none => (.error (.New "could not find 'listId' parameter"), d)
    | some listID =>
      let newTodo : TodoItem := ⟨0, name, false, listID⟩
      match GetListByID eng h listID d with
      | (.panic, d1) => (.panic, d1)
      | (.error err, d1) => (.error err, d1)
      | (.ok list, d1) =>
        match AddItem eng h list newTodo d1 with
        | (.panic, d2) => (.panic, d2)
        | (.error err, d2) => (.error err, d2)
        | (.ok _, d2) => (.ok (.item newTodo), d2)

/-- The Resolve closure of the mutation `updateTodoItem`.  Both type assertions drop
their ok flag: a missing or ill-typed argument reads as the zero value. -/
def updateTodoItem : Resolver := fun eng h args d =>
  let done := (args.bool "done").getD false
  let id := (args.int "id").getD 0
  match GetItemByID eng h id d with
  | (.panic, d1) => (.panic, d1)
  | (.error err, d1) => (.error err, d1)
  | (.ok affectedTodo, d1) =>
    let affectedTodo := { affectedTodo with Done := done }
    match GetListByID eng h affectedTodo.ListID d1 with
    | (.panic, d2) => (.panic, d2)
    | (.error err, d2) => (.error err, d2)
    | (.ok list, d2) =>
      match UpdateItem eng h list affectedTodo d2 with
      | (.panic, d3) => (.panic, d3)
      | (.error err, d3) => (.error err, d3)
      | (.ok _, d3) => (.ok (.item affectedTodo), d3)

/-- The Resolve closure of the query `todoItem`. -/
def todoItem : Resolver := fun eng h args d =>
  match args.int "id" with
  | some idQuery =>
    match GetItemByID eng h idQuery d with
    | (.panic, d1) => (.panic, d1)
    | (.error err, d1) => (.error err, d1)
    | (.ok item, d1) => (.ok (.item item), d1)
  | none => (.ok (.item TodoItem.zero), d)

/-- The Resolve closure of the query `todoList`. -/
def todoList : Resolver := fun eng h args d =>
  match args.int "listId" with
  | none => (.error (.New "no 'listId' parameter"), d)
  | some listID =>
    match GetListByID eng h listID d with
    | (.panic, d1) => (.panic, d1)
    | (.error err, d1) => (.error err, d1)
    | (.ok list, d1) => (.ok (.list list), d1)

/-- The Resolve closure of the query `todoListItems`. -/
def todoListItems : Resolver := fun eng h args d =>
  match args.int "listId" with
  | none => (.error (.New "no 'listId' parameter"), d)
  | some listID =>
    match GetListByID eng h listID d with
    | (.panic, d1) => (.panic, d1)
    | (.error err, d1) => (.error err, d1)
    | (.ok list, d1) =>
      match GetItems eng h list d1 with
      | (.panic, d2) => (.panic, d2)
      | (.error err, d2) => (.error err, d2)
      | (.ok items, d2) => (.ok (.items items), d2)

/-- The declared type of an argument. -/
inductive ArgType where
  | Int
  | String
  | Boolean
  | NonNull (t : ArgType)
  deriving DecidableEq, Repr

/-- A `graphql.Field`: description, declared arguments and, when the source gives one,
the Resolve function. -/
structure Field where
  Description : String
  Args : List (String × ArgType)
  Resolve : Option Resolver

/-- The fields of `rootMutation`, in source order.  `updateTodoList` is declared with
no Resolve function. -/
def rootMutation : List (String × Field) :=
  [ ("createTodoList",
      ⟨"Create a new todo list",
       [("name", .NonNull .String), ("id", .NonNull .Int)], some createTodoList⟩),
    ("createTodoItem",
      ⟨"Create new todo item",
       [("name", .NonNull .String), ("listId", .NonNull .Int)], some createTodoItem⟩),
    ("updateTodoList",
      ⟨"Update exisint todo list",
       [("id", .NonNull .Int), ("name", .String)], none⟩),
    ("updateTodoItem",
      ⟨"Update existing todo item, mark it done or not done",
       [("done", .Boolean), ("id", .NonNull .Int)], some updateTodoItem⟩) ]

/-- The fields of `rootQuery`, in source order. -/
def rootQuery : List (String × Field) :=
  [ ("todoItem", ⟨"Get single todo item", [("id", .NonNull .Int)], some todoItem⟩),
    ("todoList", ⟨"Get a todo list", [("listId", .NonNull .Int)], some todoList⟩),
    ("todoListItems",
      ⟨"Get the items in a todo list", [("listId", .NonNull .Int)], some todoListItems⟩) ]

/-- Whether a value has the declared type. -/
def ArgType.admits : ArgType → Value → Bool
  | .Int, .int _ => true
  | .String, .str _ => true
  | .Boolean, .bool _ => true
  | .NonNull t, v => t.admits v
  | _, _ => false

/-- Modelled from the spec: the check of one supplied argument against its declaration,
made by the GraphQL library inside `graphql.Do` before any resolver runs; that library
is not under src/.  Spec 4.2 and 7: a required (NonNull) argument must be present, and
an argument that is present must have the declared type. -/
def argOk (t : ArgType) (v : Option Value) : Bool :=
  match t, v with
  | .NonNull _, none => false
  | _, none => true
  | t, some v => t.admits v

/-- Modelled from the spec: argument validation as `graphql.Do` performs it before a
resolver runs (library code, not under src/), on the arguments the field declares in
the source.  Spec 4.2 and 7: a missing required argument, or a present argument of the
wrong type, is an argument error naming the offending argument.  The result is the
first offending declared argument, if any. -/
def checkArgs (decl : List (String × ArgType)) (args : Args) : Option String :=
  (decl.find? (fun a => !argOk a.2 (args a.1))).map Prod.fst

/-- Modelled from the spec: the resolver the GraphQL library runs for a field that is
declared without a Resolve function (library code, not under src/).  Spec 4.2 names
what an unimplemented field is otherwise left to, a silent no-op: no error, no payload,
no Storage Layer call. -/
def DefaultResolveFn : Resolver := fun _ _ _ d => (.ok .null, d)

/-- One field of a request as `executeQuery` has it served: the supplied arguments are
validated against the field's declaration, and only then its Resolve function runs, or
the default resolver when it has none. -/
def runField (f : Field) : Resolver := fun eng h args d =>
  match checkArgs f.Args args with
  | some bad => (.error (.Argument bad), d)
  | none => (f.Resolve.getD DefaultResolveFn) eng h args d

/-- The root field `name` of `obj` requested with `args`; `none` when `obj` declares no
such field. -/
def executeField (obj : List (String × Field)) (name : String) (eng : Engine) (h : Handle)
    (args : Args) (d : Database) : Option (Outcome Payload × Database) :=
  (obj.lookup name).map (fun f => runField f eng h args d)

/-- An argument map from its entries. -/
def Args.ofList (entries : List (String × Value)) : Args := fun key => entries.lookup key

/-- The database right after start-up: both tables empty. -/
def emptyDB : Database := ⟨Store.empty, []⟩

/-- A database holding the list (1, "Groceries") and its item (1, "Milk", done). -/
def groceriesDB (done : Bool) : Database :=
  ⟨⟨[⟨1, "Groceries"⟩], [⟨1, "Milk", done, 1⟩], 1, 1⟩, []⟩

end main

/-! ## Theorems -/

namespace common

/-- The package-level handle is nil when the operations run. -/
theorem db_nil : db = Handle.nil := rfl

/-- The list lookup never succeeds, whatever the handle: on the nil handle it panics,
with no matching row it reports `ErrNoRows`, and with a matching row the scan of one
column into two destinations is refused. -/
theorem GetListByID_not_ok (eng : Engine) (h : Handle) (id : Int) (d : Database)
    (l : TodoList) : (GetListByID eng h id d).1 ≠ .ok l := by
  unfold GetListByID Prepare TxPrepare QueryRowScan Query Scan
  cases h <;> cases hp : eng.prepareErr <;> cases hq : eng.queryErr <;>
    simp [Sql.wellFormed, Sql.placeholders, Sql.columns, Sql.rows, Database.note]
  cases hr : List.filter (fun l => decide (l.ID = id)) d.store.todoLists <;> simp

/-- The list lookup does not write. -/
theorem GetListByID_store (eng : Engine) (h : Handle) (id : Int) (d : Database) :
    (GetListByID eng h id d).2.store = d.store := by
  unfold GetListByID Prepare TxPrepare QueryRowScan Query Scan
  cases h <;> cases hp : eng.prepareErr <;> cases hq : eng.queryErr <;>
    simp [Sql.wellFormed, Sql.placeholders, Sql.columns, Sql.rows, Database.note]
  cases hr : List.filter (fun l => decide (l.ID = id)) d.store.todoLists <;> simp

/-- The item lookup does not write. -/
theorem GetItemByID_store (eng : Engine) (h : Handle) (id : Int) (d : Database) :
    (GetItemByID eng h id d).2.store = d.store := by
  unfold GetItemByID Prepare TxPrepare QueryRowScan Query Scan
  cases h <;> cases hp : eng.prepareErr <;> cases hq : eng.queryErr <;>
    simp [Sql.wellFormed, Sql.placeholders, Sql.columns, Sql.rows, Database.note]
  cases hr : List.filter (fun i => decide (i.ID = id)) d.store.todoItems <;> simp

/-- On a connection, the list lookup of an id that no row carries: `ErrNoRows` after one
prepare and one query. -/
theorem GetListByID_absent (eng : Engine) (id : Int) (d : Database)
    (hp : eng.prepareErr = none) (hq : eng.queryErr = none)
    (habsent : ∀ l ∈ d.store.todoLists, l.ID ≠ id) :
    GetListByID eng .conn id d =
      (.error .ErrNoRows,
        ⟨d.store, Event.query .selectListName :: Event.prepare .selectListName :: d.log⟩) := by
  have hf : List.filter (fun l => decide (l.ID = id)) d.store.todoLists = [] := by
    rw [List.filter_eq_nil_iff]
    intro l hl
    simpa using habsent l hl
  simp [GetListByID, Prepare, TxPrepare, QueryRowScan, Query, hp, hq, Sql.wellFormed,
    Sql.placeholders, Sql.rows, hf, Database.note]

/-- On a connection, the item lookup of an id that no row carries: `ErrNoRows` after one
prepare and one query. -/
theorem GetItemByID_absent (eng : Engine) (id : Int) (d : Database)
    (hp : eng.prepareErr = none) (hq : eng.queryErr = none)
    (habsent : ∀ i ∈ d.store.todoItems, i.ID ≠ id) :
    GetItemByID eng .conn id d =
      (.error .ErrNoRows,
        ⟨d.store, Event.query .selectItemFields :: Event.prepare .selectItemFields :: d.log⟩) := by
  have hf : List.filter (fun i => decide (i.ID = id)) d.store.todoItems = [] := by
    rw [List.filter_eq_nil_iff]
    intro i hi
    simpa using habsent i hi
  simp [GetItemByID, Prepare, TxPrepare, QueryRowScan, Query, hp, hq, Sql.wellFormed,
    Sql.placeholders, Sql.rows, hf, Database.note]

/-- Whatever the handle, an `AddList` that returns an error has persisted nothing. -/
theorem AddList_error_store (eng : Engine) (h : Handle) (list : TodoList) (d : Database)
    (e : Error) (he : (AddList eng h list d).1 = .error e) :
    (AddList eng h list d).2.store = d.store := by
  revert he
  unfold AddList Begin TxPrepare Exec Commit
  cases h <;> cases eng.beginErr <;> cases eng.prepareErr <;> cases eng.execErr <;>
    cases eng.commitErr <;>
    simp [Sql.wellFormed, Sql.placeholders, Database.note, Sql.write] <;>
    cases nextID d.store.listSeq (List.map TodoList.ID d.store.todoLists) <;> simp

/-- Whatever the handle, an `AddItem` that returns an error has persisted nothing. -/
theorem AddItem_error_store (eng : Engine) (h : Handle) (list : TodoList) (item : TodoItem)
    (d : Database) (e : Error) (he : (AddItem eng h list item d).1 = .error e) :
    (AddItem eng h list item d).2.store = d.store := by
  revert he
  unfold AddItem Begin TxPrepare Exec Commit
  cases h <;> cases eng.beginErr <;> cases eng.prepareErr <;> cases eng.execErr <;>
    cases eng.commitErr <;>
    simp [Sql.wellFormed, Sql.placeholders, Database.note, Sql.write] <;>
    cases nextID d.store.itemSeq (List.map TodoItem.ID d.store.todoItems) <;> simp

/-- No run of `UpdateItem` changes the store. -/
theorem UpdateItem_store (eng : Engine) (h : Handle) (list : TodoList) (item : TodoItem)
    (d : Database) : (UpdateItem eng h list item d).2.store = d.store := by
  unfold UpdateItem Begin TxPrepare Exec Commit
  cases h <;> cases eng.beginErr <;> cases eng.prepareErr <;> cases eng.execErr <;>
    cases eng.commitErr <;>
    simp [Sql.wellFormed, Sql.placeholders, Database.note]

/-- No run of `UpdateItem` succeeds: at the latest its statement is refused when it is
prepared. -/
theorem UpdateItem_fails (eng : Engine) (h : Handle) (list : TodoList) (item : TodoItem)
    (d : Database) : (UpdateItem eng h list item d).1 ≠ .ok () := by
  unfold UpdateItem Begin TxPrepare Exec Commit
  cases h <;> cases eng.beginErr <;> cases eng.prepareErr <;> cases eng.execErr <;>
    cases eng.commitErr <;>
    simp [Sql.wellFormed, Sql.placeholders, Database.note]

/-- On a connection the deferred commit runs after a failed statement: `UpdateItem`
returns the error of its refused statement and the transaction is committed (and, as
everywhere in the code, not rolled back). -/
theorem UpdateItem_commits_on_connection :
    UpdateItem Engine.healthy .conn ⟨1, "Groceries"⟩ ⟨1, "Milk", true, 1⟩
        ⟨⟨[⟨1, "Groceries"⟩], [⟨1, "Milk", false, 1⟩], 1, 1⟩, []⟩
      = (.error .syntaxError,
          ⟨⟨[⟨1, "Groceries"⟩], [⟨1, "Milk", false, 1⟩], 1, 1⟩,
            [Event.txCommit, Event.prepare .updateItemSet, Event.txBegin]⟩) :=
  rfl

end common

namespace main

open common

/-- No call of `createTodoItem` returns a payload, since its list lookup never succeeds. -/
theorem createTodoItem_not_ok (eng : Engine) (h : Handle) (args : Args) (d : Database)
    (p : Payload) : (createTodoItem eng h args d).1 ≠ .ok p := by
  unfold createTodoItem
  cases args.string "name" <;> simp
  cases hi : args.int "listId" <;> simp
  rename_i name listID
  have hl := GetListByID_not_ok eng h listID d
  revert hl
  cases GetListByID eng h listID d with
  | mk r d1 => cases r <;> simp

/-- No call of `updateTodoItem` returns a payload: after the item is found, the lookup
of its list never succeeds. -/
theorem updateTodoItem_not_ok (eng : Engine) (h : Handle) (args : Args) (d : Database)
    (p : Payload) : (updateTodoItem eng h args d).1 ≠ .ok p := by
  unfold updateTodoItem
  simp only
  cases GetItemByID eng h ((args.int "id").getD 0) d with
  | mk r d1 =>
    cases r with
    | error e => simp
    | panic => simp
    | ok it =>
      simp only
      have hl := GetListByID_not_ok eng h it.ListID d1
      revert hl
      cases GetListByID eng h it.ListID d1 with
      | mk r2 d2 =>
        cases r2 with
        | error e => simp
        | panic => simp
        | ok l => intro hl; exact absurd rfl (hl l)

/-- No call of `updateTodoItem` changes the store. -/
theorem updateTodoItem_store (eng : Engine) (h : Handle) (args : Args) (d : Database) :
    (updateTodoItem eng h args d).2.store = d.store := by
  unfold updateTodoItem
  simp only
  have h1 := GetItemByID_store eng h ((args.int "id").getD 0) d
  revert h1
  cases GetItemByID eng h ((args.int "id").getD 0) d with
  | mk r d1 =>
    cases r with
    | error e => simp
    | panic => simp
    | ok it =>
      simp only
      intro h1
      have h2 := GetListByID_store eng h it.ListID d1
      have h3 := GetListByID_not_ok eng h it.ListID d1
      revert h2 h3
      cases GetListByID eng h it.ListID d1 with
      | mk r2 d2 =>
        cases r2 with
        | error e => simp; intro h2; rw [h2, h1]
        | panic => simp; intro h2; rw [h2, h1]
        | ok l => intro _ h3; exact absurd rfl (h3 l)

/-- On a connection, `createTodoItem` for a list id that no row carries fails with
`sql.ErrNoRows`, leaves the store unchanged and makes only the two engine calls of the
list lookup. -/
theorem createTodoItem_unknown_list_on_connection (eng : Engine) (args : Args)
    (d : Database) (name : String) (listID : Int)
    (hname : args "name" = some (.str name)) (hlist : args "listId" = some (.int listID))
    (hp : eng.prepareErr = none) (hq : eng.queryErr = none)
    (habsent : ∀ l ∈ d.store.todoLists, l.ID ≠ listID) :
    (createTodoItem eng .conn args d).1 = .error .ErrNoRows ∧
    (createTodoItem eng .conn args d).2.store = d.store ∧
    (createTodoItem eng .conn args d).2.log =
      Event.query .selectListName :: Event.prepare .selectListName :: d.log := by
  simp [createTodoItem, Args.string, Args.int, hname, hlist,
    GetListByID_absent eng listID d hp hq habsent]

/-- On a connection, `todoItem` for an id that no row carries returns exactly the
`sql.ErrNoRows` of `GetItemByID`. -/
theorem todoItem_unknown_id_on_connection (eng : Engine) (args : Args) (d : Database)
    (id : Int) (hid : args "id" = some (.int id))
    (hp : eng.prepareErr = none) (hq : eng.queryErr = none)
    (habsent : ∀ i ∈ d.store.todoItems, i.ID ≠ id) :
    (GetItemByID eng .conn id d).1 = .error .ErrNoRows ∧
    (todoItem eng .conn args d).1 = .error .ErrNoRows ∧
    (todoItem eng .conn args d).2 = (GetItemByID eng .conn id d).2 := by
  simp [todoItem, Args.int, hid, GetItemByID_absent eng id d hp hq habsent]

/-- Validation leaves the resolvers nothing to guard: when the declared arguments pass
the check, a required Int argument is present as an int. -/
theorem checked_int_present (decl : List (String × ArgType)) (args : Args) (a : String)
    (hdecl : (a, ArgType.NonNull .Int) ∈ decl) (hok : checkArgs decl args = none) :
    ∃ n, args.int a = some n := by
  unfold checkArgs at hok
  rw [Option.map_eq_none', List.find?_eq_none] at hok
  have h1 := hok _ hdecl
  simp only [Bool.not_eq_true, Bool.not_eq_false', Bool.not_not] at h1
  unfold Args.int
  revert h1
  cases args a with
  | none => simp [argOk]
  | some v => cases v <;> simp [argOk, ArgType.admits]

end main

namespace main

open common

/-- C1, evaluated on the code.  As written the package-level handle is nil and
`createTodoList(name = "Groceries", id = 1)` panics at `db.Begin` with nothing stored.
With the handle bound to a connection the call succeeds, returns the list with id 1 and
stores the row (1, "Groceries"); looking that id up with `GetListByID` (and with the
`todoList` query) then fails, because the one selected column is scanned into two
destinations. -/
theorem createTodoList_then_GetListByID_fails :
    createTodoList Engine.healthy db
        (Args.ofList [("name", .str "Groceries"), ("id", .int 1)]) emptyDB
      = (.panic, emptyDB) ∧
    (createTodoList Engine.healthy .conn
        (Args.ofList [("name", .str "Groceries"), ("id", .int 1)]) emptyDB).1
      = .ok (.list ⟨1, "Groceries"⟩) ∧
    (createTodoList Engine.healthy .conn
        (Args.ofList [("name", .str "Groceries"), ("id", .int 1)]) emptyDB).2.store.todoLists
      = [⟨1, "Groceries"⟩] ∧
    (GetListByID Engine.healthy .conn 1
        (createTodoList Engine.healthy .conn
          (Args.ofList [("name", .str "Groceries"), ("id", .int 1)]) emptyDB).2).1
      = .error (.scanArity 1 2) ∧
    (todoList Engine.healthy .conn (Args.ofList [("listId", .int 1)])
        (createTodoList Engine.healthy .conn
          (Args.ofList [("name", .str "Groceries"), ("id", .int 1)]) emptyDB).2).1
      = .error (.scanArity 1 2) :=
  ⟨rfl, rfl, rfl, rfl, rfl⟩

/-- C2, evaluated on the code.  With the list 1 in the store,
`createTodoItem(name = "Bread", listId = 1)` does not succeed.  As written it panics at
the `db.Prepare` of the list lookup.  With the handle bound to a connection the lookup
of the owning list fails on its scan, no row is added, and the items of list 1 read
afterwards do not contain a "Bread" item. -/
theorem createTodoItem_existing_list_fails :
    createTodoItem Engine.healthy db
        (Args.ofList [("name", .str "Bread"), ("listId", .int 1)]) (groceriesDB false)
      = (.panic, groceriesDB false) ∧
    (createTodoItem Engine.healthy .conn
        (Args.ofList [("name", .str "Bread"), ("listId", .int 1)]) (groceriesDB false)).1
      = .error (.scanArity 1 2) ∧
    (createTodoItem Engine.healthy .conn
        (Args.ofList [("name", .str "Bread"), ("listId", .int 1)]) (groceriesDB false)).2.store
      = (groceriesDB false).store ∧
    (GetItems Engine.healthy .conn ⟨1, "Groceries"⟩
        (createTodoItem Engine.healthy .conn
          (Args.ofList [("name", .str "Bread"), ("listId", .int 1)]) (groceriesDB false)).2).1
      = .ok [⟨1, "Milk", false, 1⟩] :=
  ⟨rfl, rfl, rfl, rfl⟩

/-- C3, evaluated on the code: with list 1 in the store and no list 7, the request
`createTodoItem(name = "Bread", listId = 7)` ends in a panic, the nil pointer
dereference of `db.Prepare` in the list lookup, with no engine call made: it does not
fail with the not-found error `sql.ErrNoRows`, which is what the same call returns once
the handle is a connection. -/
theorem createTodoItem_unknown_list_panics :
    executeField rootMutation "createTodoItem" Engine.healthy db
        (Args.ofList [("name", .str "Bread"), ("listId", .int 7)]) (groceriesDB false)
      = some (.panic, groceriesDB false) ∧
    GetListByID Engine.healthy db 7 (groceriesDB false) = (.panic, groceriesDB false) ∧
    (executeField rootMutation "createTodoItem" Engine.healthy .conn
        (Args.ofList [("name", .str "Bread"), ("listId", .int 7)]) (groceriesDB false)).map
          Prod.fst
      = some (.error .ErrNoRows) :=
  ⟨rfl, rfl, rfl⟩

/-- C4, evaluated on the code.  With the item (1, "Milk", done = false, list 1) in the
store, `updateTodoItem(id = 1, done = true)` persists nothing.  As written it panics at
the `db.Prepare` of the item lookup.  With the handle bound to a connection it fails on
the scan of the list lookup, before `UpdateItem` is called, and `GetItemByID 1`
afterwards still returns done = false. -/
theorem updateTodoItem_done_not_persisted :
    updateTodoItem Engine.healthy db
        (Args.ofList [("id", .int 1), ("done", .bool true)]) (groceriesDB false)
      = (.panic, groceriesDB false) ∧
    (updateTodoItem Engine.healthy .conn
        (Args.ofList [("id", .int 1), ("done", .bool true)]) (groceriesDB false)).1
      = .error (.scanArity 1 2) ∧
    (GetItemByID Engine.healthy .conn 1
        (updateTodoItem Engine.healthy .conn
          (Args.ofList [("id", .int 1), ("done", .bool true)]) (groceriesDB false)).2).1
      = .ok ⟨1, "Milk", false, 1⟩ :=
  ⟨rfl, rfl, rfl⟩

/-- C5, evaluated on the code.  With the item (1, "Milk", done = true, list 1) in the
store, `updateTodoItem(id = 1)` with `done` left out returns no item.  As written it
panics at the `db.Prepare` of the item lookup.  With the handle bound to a connection it
fails on the scan of the list lookup, and no engine call beyond the two lookups is
made. -/
theorem updateTodoItem_done_omitted_fails :
    updateTodoItem Engine.healthy db (Args.ofList [("id", .int 1)]) (groceriesDB true)
      = (.panic, groceriesDB true) ∧
    updateTodoItem Engine.healthy .conn (Args.ofList [("id", .int 1)]) (groceriesDB true)
      = (.error (.scanArity 1 2),
          ⟨(groceriesDB true).store,
            [Event.query .selectListName, Event.prepare .selectListName,
             Event.query .selectItemFields, Event.prepare .selectItemFields]⟩) :=
  ⟨rfl, rfl⟩

/-- C6, the claim as stated refuted at a concrete input: on the empty store the request
`updateTodoList(id = 1, name = "x")` produces no error at all. -/
theorem updateTodoList_no_error_at_sample :
    ¬ ∃ err d1,
      executeField rootMutation "updateTodoList" Engine.healthy db
          (Args.ofList [("id", .int 1), ("name", .str "x")]) emptyDB
        = some (.error err, d1) := by
  rintro ⟨err, d1, h⟩
  have h2 : executeField rootMutation "updateTodoList" Engine.healthy db
      (Args.ofList [("id", .int 1), ("name", .str "x")]) emptyDB
        = some (.ok .null, emptyDB) := rfl
  rw [h2] at h
  cases h

/-- C6, amended: `updateTodoList` is declared with no Resolve function, and for every
engine, handle, argument map and database a request for it leaves the database as it
was: the store is unchanged and no engine call is made. -/
theorem updateTodoList_leaves_database (eng : Engine) (h : Handle) (args : Args)
    (d : Database) :
    (rootMutation.lookup "updateTodoList").map (fun f => f.Resolve.isNone) = some true ∧
    (executeField rootMutation "updateTodoList" eng h args d).map Prod.snd = some d := by
  refine ⟨rfl, ?_⟩
  have hl : rootMutation.lookup "updateTodoList"
      = some ⟨"Update exisint todo list", [("id", .NonNull .Int), ("name", .String)], none⟩ :=
    rfl
  simp only [executeField, hl, Option.map_some', runField, Option.getD_none, DefaultResolveFn]
  cases checkArgs [("id", ArgType.NonNull .Int), ("name", ArgType.String)] args <;> rfl

end main

namespace common

/-- C7: on the code as written no write operation reaches a transaction.  For every
engine and every database, `AddList`, `AddItem` and `UpdateItem` on the package-level
handle end in the panic of `db.Begin` with the database untouched: the store is the
store before the call, nothing is committed, and no error value is returned.  So no run
commits after a failed statement, and no run returns an error with a changed store. -/
theorem write_operations_leave_store (eng : Engine) (list : TodoList) (item : TodoItem)
    (d : Database) :
    AddList eng db list d = (.panic, d) ∧
    AddItem eng db list item d = (.panic, d) ∧
    UpdateItem eng db list item d = (.panic, d) :=
  ⟨rfl, rfl, rfl⟩

end common

namespace main

open common

/-- C8: a request for a field of the catalog in which a required (NonNull) argument is
missing or has another type than declared is rejected with an argument error that
names an offending argument of that field, and the database is untouched: no resolver
runs and no engine call is made. -/
theorem missing_required_argument_rejected (obj : List (String × Field)) (name : String)
    (f : Field) (eng : Engine) (h : Handle) (args : Args) (d : Database)
    (arg : String) (t : ArgType)
    (hf : obj.lookup name = some f) (hdecl : (arg, ArgType.NonNull t) ∈ f.Args)
    (hbad : argOk (.NonNull t) (args arg) = false) :
    ∃ bad t2, (bad, t2) ∈ f.Args ∧ argOk t2 (args bad) = false ∧
      executeField obj name eng h args d = some (.error (.Argument bad), d) := by
  have hex : ∃ a, a ∈ f.Args ∧ (!argOk a.2 (args a.1)) = true :=
    ⟨(arg, .NonNull t), hdecl, by simp [hbad]⟩
  cases hfind : f.Args.find? (fun a => !argOk a.2 (args a.1)) with
  | none =>
    rw [List.find?_eq_none] at hfind
    obtain ⟨a, ha, hb⟩ := hex
    exact absurd hb (hfind a ha)
  | some a =>
    have hmem := List.mem_of_find?_eq_some hfind
    have hp := List.find?_some hfind
    refine ⟨a.1, a.2, hmem, by simpa using hp, ?_⟩
    simp [executeField, hf, runField, checkArgs, hfind]

/-- C8 at concrete inputs of the catalog: `todoItem` requested with no `id`, and
`createTodoList` requested with `id` given as a string. -/
theorem missing_required_argument_rejected_witness :
    (∃ bad t2, (bad, t2) ∈ [("id", ArgType.NonNull .Int)] ∧
      argOk t2 ((Args.ofList []) bad) = false ∧
      executeField rootQuery "todoItem" Engine.healthy db (Args.ofList []) emptyDB
        = some (.error (.Argument bad), emptyDB)) ∧
    executeField rootQuery "todoItem" Engine.healthy db (Args.ofList []) emptyDB
      = some (.error (.Argument "id"), emptyDB) ∧
    executeField rootMutation "createTodoList" Engine.healthy db
        (Args.ofList [("name", .str "Groceries"), ("id", .str "1")]) emptyDB
      = some (.error (.Argument "id"), emptyDB) :=
  ⟨missing_required_argument_rejected rootQuery "todoItem"
      ⟨"Get single todo item", [("id", .NonNull .Int)], some todoItem⟩
      Engine.healthy db (Args.ofList []) emptyDB "id" .Int rfl (by simp) rfl,
    rfl, rfl⟩

/-- C9: on the code as written list creation returns no list.  For every engine, every
argument map and every database, `createTodoList` on the package-level handle leaves
the database untouched and ends either in one of its two argument errors or in the
panic of `db.Begin`: the call is rejected, no row is inserted, and a caller-supplied id
never appears as the id of a returned list. -/
theorem createTodoList_returns_no_list (eng : Engine) (args : Args) (d : Database) :
    (createTodoList eng db args d).2 = d ∧
    ((createTodoList eng db args d).1 = .panic ∨
      (createTodoList eng db args d).1 = .error (.New "could not find 'name' parameter") ∨
      (createTodoList eng db args d).1 = .error (.New "could not found 'id' parameter")) ∧
    ∀ p, (createTodoList eng db args d).1 ≠ .ok p := by
  unfold createTodoList
  cases args.string "name" with
  | none => simp
  | some name =>
    cases args.int "id" with
    | none => simp
    | some id =>
      have hp : AddList eng db ⟨id, name⟩ d = (.panic, d) := rfl
      simp [hp]

/-- C10, evaluated on the code: the request `todoItem(id = 999)` on the empty store ends
in a panic, the nil pointer dereference of `db.Prepare` in `GetItemByID`, with no engine
call made: `GetItemByID` produces no `sql.ErrNoRows` to propagate, which is what the
same call returns once the handle is a connection. -/
theorem todoItem_unknown_id_panics :
    executeField rootQuery "todoItem" Engine.healthy db
        (Args.ofList [("id", .int 999)]) emptyDB
      = some (.panic, emptyDB) ∧
    GetItemByID Engine.healthy db 999 emptyDB = (.panic, emptyDB) ∧
    (executeField rootQuery "todoItem" Engine.healthy .conn
        (Args.ofList [("id", .int 999)]) emptyDB).map Prod.fst
      = some (.error .ErrNoRows) :=
  ⟨rfl, rfl, rfl⟩

end main
